import Mathlib

/-!
Shallow embedding of `ToPdf.py`, a batch Office-to-PDF converter that
delegates conversion to a remote document service (Google Drive).  Pure
functions below are direct translations of the Python source; effects
(remote HTTP calls, filesystem writes, sleeps) are made explicit as event
lists returned by the functions, and the remote service together with the
random jitter are oracles passed in as parameters.
-/

namespace ToPdf

/-- Result of `convert_one`: the Python function returns one of the strings
`'success' | 'failed' | 'skipped'`. -/
inductive Status where
  | success
  | failed
  | skipped
deriving DecidableEq, Repr

/-- Python exceptions distinguished by the `except` clauses of
`convert_one`: `HttpError` (with the optional extracted status code),
`(BrokenPipeError, OSError)`, and any other `Exception`. -/
inductive PyExc where
  | http (status : Option Int)
  | ioErr
  | other
deriving DecidableEq, Repr

/-- Remote Drive operations issued by `convert_one`, in issue order.
`create` records the source MIME type, the target cloud-document MIME
type, the resumable flag and the chunk size passed to `MediaFileUpload`. -/
inductive RemoteOp where
  | create (srcMime tgtMime : String) (resumable : Bool) (chunk : Option Nat)
  | exportPdf (fileId : String)
  | delete (fileId : String)
deriving DecidableEq, Repr

/-- Filesystem events on the output directory: `open(out_path, "wb")`
truncates/creates the file, `f.write(...)` stores the exported bytes. -/
inductive FsEv where
  | truncateOut (path : String)
  | writeOut (path : String) (content : String)
deriving DecidableEq, Repr

/-- Behaviour of the remote service during one attempt of the retry loop:
the result of the `files().create(...).execute()` call (a file id on
success) and of the `export_media(...).execute()` call (the PDF bytes on
success).  `delete` calls are best-effort in the source (every exception
swallowed), so their outcome is irrelevant and not modelled. -/
structure AttemptOracle where
  createRes : Except PyExc String
  exportRes : Except PyExc String

/-- Observable outcome of `convert_one`: the returned status plus the
traces of remote operations, filesystem events and `time.sleep` durations
(in seconds, as exact rationals). -/
structure ConvOut where
  status : Status
  ops : List RemoteOp
  fs : List FsEv
  sleeps : List ℚ

/-- `RESUMABLE_THRESHOLD_BYTES = 5 * 1024 * 1024`. -/
def RESUMABLE_THRESHOLD_BYTES : Nat := 5 * 1024 * 1024

/-- `RESUMABLE_UPLOAD_CHUNK_SIZE = 8 * 1024 * 1024`. -/
def RESUMABLE_UPLOAD_CHUNK_SIZE : Nat := 8 * 1024 * 1024

/-- The `SUPPORTED_MIME` table: extension, source MIME type, target
Google-native MIME type. -/
def SUPPORTED_MIME : List (String × String × String) :=
  [ (".doc", "application/msword", "application/vnd.google-apps.document"),
    (".docx",
      "application/vnd.openxmlformats-officedocument.wordprocessingml.document",
      "application/vnd.google-apps.document"),
    (".ppt", "application/vnd.ms-powerpoint",
      "application/vnd.google-apps.presentation"),
    (".pptx",
      "application/vnd.openxmlformats-officedocument.presentationml.presentation",
      "application/vnd.google-apps.presentation"),
    (".xls", "application/vnd.ms-excel",
      "application/vnd.google-apps.spreadsheet"),
    (".xlsx",
      "application/vnd.openxmlformats-officedocument.spreadsheetml.sheet",
      "application/vnd.google-apps.spreadsheet") ]

/-- `SUPPORTED_MIME.get(ext)`. -/
def lookupMime (ext : String) : Option (String × String) :=
  List.lookup ext SUPPORTED_MIME

/-- Index of the last occurrence of `c` in `l` (Python `str.rfind`),
`none` when absent. -/
def lastIdx (c : Char) (l : List Char) : Option Nat :=
  ((l.enum.filter (fun p => p.2 == c)).map (fun p => p.1)).getLast?

/-- `os.path.splitext` for POSIX paths: split at the last dot that comes
after the last separator, unless every character between the separator and
that dot is itself a dot (so leading dots of the basename never start an
extension). -/
def pySplitext (p : String) : String × String :=
  let l := p.data
  let sep : Int := match lastIdx '/' l with
    | some i => (i : Int)
    | none => -1
  match lastIdx '.' l with
  | none => (p, "")
  | some dot =>
    if sep < (dot : Int) then
      let start := (sep + 1).toNat
      if (List.range' start (dot - start)).any (fun k => l.getD k '.' != '.') then
        (⟨l.take dot⟩, ⟨l.drop dot⟩)
      else (p, "")
    else (p, "")

/-- `os.path.basename` for POSIX paths: everything after the last `/`. -/
def pyBasename (p : String) : String :=
  match lastIdx '/' p.data with
  | none => p
  | some i => ⟨p.data.drop (i + 1)⟩

/-- Python `str.lower`, restricted to ASCII (sufficient for the extension
table and the filenames the claims quantify over). -/
def strLower (s : String) : String :=
  ⟨s.data.map Char.toLower⟩

/-- `os.path.splitext(path)[1].lower()`. -/
def extOf (path : String) : String :=
  strLower (pySplitext path).2

/-- `out_path = os.path.join(OUTPUT_DIR, os.path.splitext(basename)[0] + ".pdf")`. -/
def outPathOf (outputDir path : String) : String :=
  outputDir ++ "/" ++ ((pySplitext (pyBasename path)).1 ++ ".pdf")

/-- Whether the `except` clause hit at attempt `a` (of `attempts`) returns
`'failed'` immediately: HTTP 400 only on the final attempt, I/O errors and
other exceptions only on the final attempt; every other case falls through
to the backoff sleep and the next attempt. -/
def excReturns (e : PyExc) (a attempts : Nat) : Bool :=
  match e with
  | .http s => s == some 400 && a == attempts
  | .ioErr => a == attempts
  | .other => a == attempts

/-- Per-file metadata as `convert_one` reads it: the path, the source's
`os.path.getmtime` (`none` models an `OSError` from the skipped-over stat),
the source's `os.path.getsize`, and the `file_size` argument. -/
structure FileCtx where
  path : String
  srcMtime : Option Int
  getsize : Nat
  fileSize : Option Nat

/-- The up-to-date skip test of `convert_one`: output exists and
`os.path.getmtime(out_path) >= os.path.getmtime(path)`, with any `OSError`
from the mtime reads (modelled as `none`) swallowed. -/
def upToDate (outFS : List (String × Option Int)) (outPath : String)
    (srcMtime : Option Int) : Bool :=
  match List.lookup outPath outFS with
  | some (some mo) =>
    match srcMtime with
    | some ms => decide (ms ≤ mo)
    | none => false
  | some none => false
  | none => false

/-- The `for attempt in range(1, attempts + 1)` retry loop of
`convert_one`.  Each attempt issues the create call; on its success the
output file is truncated, the export call issued, and on export success
the bytes written, the temporary copy deleted in the success path, and
deleted again by the `finally` block that runs on every exit of the loop
body while `file_id` is set.  A raising attempt either returns `'failed'`
(per `excReturns`) or sleeps `backoff + uniform(0, 0.2)` seconds and
doubles the backoff.  Exhausting the loop returns `'failed'`. -/
def convertLoop (oracle : Nat → AttemptOracle) (jitter : Nat → ℚ)
    (srcMime tgtMime : String) (resumable : Bool) (chunk : Option Nat)
    (outPath : String) : Nat → Nat → ℚ → ConvOut
  | 0, _, _ => ⟨.failed, [], [], []⟩
  | fuel + 1, a, b =>
    let cop := RemoteOp.create srcMime tgtMime resumable chunk
    match (oracle a).createRes with
    | .error e =>
      if excReturns e a 3 then ⟨.failed, [cop], [], []⟩
      else
        let rest := convertLoop oracle jitter srcMime tgtMime resumable chunk
          outPath fuel (a + 1) (b * 2)
        ⟨rest.status, cop :: rest.ops, rest.fs, (b + jitter a) :: rest.sleeps⟩
    | .ok fid =>
      match (oracle a).exportRes with
      | .error e =>
        if excReturns e a 3 then
          ⟨.failed, [cop, .exportPdf fid, .delete fid], [.truncateOut outPath], []⟩
        else
          let rest := convertLoop oracle jitter srcMime tgtMime resumable chunk
            outPath fuel (a + 1) (b * 2)
          ⟨rest.status, cop :: .exportPdf fid :: .delete fid :: rest.ops,
            .truncateOut outPath :: rest.fs, (b + jitter a) :: rest.sleeps⟩
      | .ok pdf =>
        ⟨.success, [cop, .exportPdf fid, .delete fid, .delete fid],
          [.truncateOut outPath, .writeOut outPath pdf], []⟩

/-- `convert_one(drive, path, file_size)`: skip unsupported extensions,
skip when the existing PDF is at least as new as the source, otherwise
upload (resumably above the threshold, with the fixed chunk size), export
as PDF, delete the temporary copy, under the 3-attempt retry loop.
`outFS` is the output directory's contents (path, readable mtime). -/
def convert_one (oracle : Nat → AttemptOracle) (jitter : Nat → ℚ)
    (outputDir : String) (outFS : List (String × Option Int))
    (ctx : FileCtx) : ConvOut :=
  match lookupMime (extOf ctx.path) with
  | none => ⟨.skipped, [], [], []⟩
  | some m =>
    let outPath := outPathOf outputDir ctx.path
    if upToDate outFS outPath ctx.srcMtime then ⟨.skipped, [], [], []⟩
    else
      let size := ctx.fileSize.getD ctx.getsize
      convertLoop oracle jitter m.1 m.2 (decide (size > RESUMABLE_THRESHOLD_BYTES))
        (if size > RESUMABLE_THRESHOLD_BYTES then some RESUMABLE_UPLOAD_CHUNK_SIZE
         else none)
        outPath 3 1 1

/-- One entry of `os.listdir(INPUT_DIR)`: its name, whether the joined
path `os.path.isfile`, and its `os.path.getsize` (`none` models the
`OSError` branch that skips the entry with a warning). -/
structure DirEntry where
  name : String
  isFile : Bool
  statSize : Option Nat

/-- The `file_info` list built by `process_all`: joined path and size for
every entry that is a regular file, has a supported extension and whose
size could be read. -/
def eligibleInfo (inputDir : String) (entries : List DirEntry) :
    List (String × Nat) :=
  entries.filterMap (fun e =>
    let path := inputDir ++ "/" ++ e.name
    if e.isFile && (lookupMime (extOf path)).isSome then
      e.statSize.map (fun s => (path, s))
    else none)

/-- Python string `<=`: lexicographic comparison by code point. -/
def lexLe : List Char → List Char → Bool
  | [], _ => true
  | _ :: _, [] => false
  | a :: as, b :: bs =>
    if a.toNat < b.toNat then true
    else if b.toNat < a.toNat then false
    else lexLe as bs

/-- The sort key of `process_all`: `os.path.basename(path).lower()`, as a
character list compared by `lexLe`. -/
def sortKey (path : String) : List Char :=
  (pyBasename path).data.map Char.toLower

/-- Stable insertion of `x` into a sorted list: `x` goes in front of the
first element it compares `le` to, so earlier elements win ties. -/
def oInsert (le : α → α → Bool) (x : α) : List α → List α
  | [] => [x]
  | y :: ys => if le x y then x :: y :: ys else y :: oInsert le x ys

/-- Stable sort by repeated insertion.  Python's `list.sort` is a stable
sort, and a stable sort's output is uniquely determined by the key order
and the input order, so this computes exactly what `file_info.sort(key=...)`
computes. -/
def pySort (le : α → α → Bool) : List α → List α
  | [] => []
  | x :: xs => oInsert le x (pySort le xs)

/-- Comparison used by `file_info.sort(key=lambda item: basename(item[0]).lower())`. -/
def infoLe (a b : String × Nat) : Bool :=
  lexLe (sortKey a.1) (sortKey b.1)

/-- Start/finish markers of a single file's conversion inside the batch
loop, used to express how many files are in flight simultaneously. -/
inductive BatchEv where
  | start (path : String)
  | finish (path : String)
deriving DecidableEq, Repr

/-- Everything `process_all` does that is observable: processing order,
the three counters, whether the empty-input warning fired, the reported
elapsed time, and the concatenated remote/filesystem/interleaving traces. -/
structure BatchOut where
  order : List String
  success : Nat
  failed : Nat
  skipped : Nat
  warnedEmpty : Bool
  elapsed : Option ℚ
  ops : List RemoteOp
  fs : List FsEv
  trace : List BatchEv

/-- The `for index, (path, size) in enumerate(file_info)` loop: each file
is converted in turn (the surrounding `try/except` turns an escaping
exception into `'failed'` with no recorded effects) and bumps exactly one
counter; `results[status] += 1` always hits one of the three keys because
`convert_one` only returns those. -/
def runBatch (runOne : String → Nat → Except PyExc ConvOut) :
    List (String × Nat) → BatchOut
  | [] => ⟨[], 0, 0, 0, false, none, [], [], []⟩
  | (p, s) :: rest =>
    let fileRes : Status × List RemoteOp × List FsEv :=
      match runOne p s with
      | .ok out => (out.status, out.ops, out.fs)
      | .error _ => (.failed, [], [])
    let r := runBatch runOne rest
    ⟨p :: r.order,
      (if fileRes.1 = .success then 1 else 0) + r.success,
      (if fileRes.1 = .failed then 1 else 0) + r.failed,
      (if fileRes.1 = .skipped then 1 else 0) + r.skipped,
      false, none,
      fileRes.2.1 ++ r.ops, fileRes.2.2 ++ r.fs,
      .start p :: .finish p :: r.trace⟩

/-- `process_all(drive)`: build `file_info`, warn and return when it is
empty, else sort by lower-cased basename and run the loop, reporting the
elapsed wall-clock time at the end.  `runOne` abstracts
`convert_one(drive, path, size)`; `startTime`/`endTime` are the two
`time.time()` readings. -/
def process_all (inputDir : String) (entries : List DirEntry)
    (runOne : String → Nat → Except PyExc ConvOut)
    (startTime endTime : ℚ) : BatchOut :=
  let info := eligibleInfo inputDir entries
  if info.isEmpty then ⟨[], 0, 0, 0, true, none, [], [], []⟩
  else
    let r := runBatch runOne (pySort infoLe info)
    ⟨r.order, r.success, r.failed, r.skipped, false,
      some (endTime - startTime), r.ops, r.fs, r.trace⟩

/-- Running in-flight counts along a batch trace, starting from `n`
files in flight. -/
def inFlightCounts : List BatchEv → Nat → List Nat
  | [], _ => []
  | ev :: rest, n =>
    let m := match ev with
      | .start _ => n + 1
      | .finish _ => n - 1
    m :: inFlightCounts rest m

/-- Largest number of files simultaneously in flight during a batch. -/
def maxInFlight (t : List BatchEv) : Nat :=
  (inFlightCounts t 0).foldr max 0

/-- Path a filesystem event touches. -/
def evPath : FsEv → String
  | .truncateOut p => p
  | .writeOut p _ => p

/-- Replay filesystem events onto the output-directory listing: each event
(re)creates its file with modification time `t`; newer entries shadow
older ones for `List.lookup`. -/
def applyFs (l : List (String × Option Int)) (t : Int) :
    List FsEv → List (String × Option Int)
  | [] => l
  | ev :: rest => applyFs ((evPath ev, some t) :: l) t rest

/-! ### Order facts about the Python string comparison -/

theorem lexLe_total (a b : List Char) : lexLe a b = true ∨ lexLe b a = true := by
  induction a generalizing b with
  | nil => exact Or.inl rfl
  | cons x xs ih =>
    cases b with
    | nil => exact Or.inr rfl
    | cons y ys =>
      rcases Nat.lt_trichotomy x.toNat y.toNat with h | h | h
      · left; simp [lexLe, h]
      · rcases ih ys with h' | h' <;> simp [lexLe, h, Nat.lt_irrefl, h']
      · right; simp [lexLe, h]

theorem lexLe_trans {a b c : List Char} (h1 : lexLe a b = true)
    (h2 : lexLe b c = true) : lexLe a c = true := by
  induction a generalizing b c with
  | nil => rfl
  | cons x xs ih =>
    cases b with
    | nil => simp [lexLe] at h1
    | cons y ys =>
      cases c with
      | nil => simp [lexLe] at h2
      | cons z zs =>
        rcases Nat.lt_trichotomy x.toNat y.toNat with hxy | hxy | hxy <;>
          rcases Nat.lt_trichotomy y.toNat z.toNat with hyz | hyz | hyz <;>
          simp [lexLe, hxy, hyz, Nat.lt_irrefl] at h1 h2 ⊢ <;>
          first
          | omega
          | (try simp [Nat.lt_asymm hxy] at h1) <;>
            (try simp [Nat.lt_asymm hyz] at h2) <;>
            (try exact ih h1 h2) <;>
            omega

theorem infoLe_total (a b : String × Nat) :
    infoLe a b = true ∨ infoLe b a = true := lexLe_total _ _

theorem infoLe_trans {a b c : String × Nat} (h1 : infoLe a b = true)
    (h2 : infoLe b c = true) : infoLe a c = true := lexLe_trans h1 h2

/-! ### Stable insertion sort lemmas -/

theorem oInsert_perm (le : α → α → Bool) (x : α) (l : List α) :
    (oInsert le x l).Perm (x :: l) := by
  induction l with
  | nil => exact List.Perm.refl _
  | cons y ys ih =>
    by_cases h : le x y = true
    · simp [oInsert, h]
    · simp only [oInsert, h, if_neg, Bool.not_eq_true]
      exact ((ih.cons y).trans (List.Perm.swap x y ys)).symm.symm

theorem pySort_perm (le : α → α → Bool) (l : List α) :
    (pySort le l).Perm l := by
  induction l with
  | nil => exact List.Perm.refl _
  | cons x xs ih => exact (oInsert_perm le x (pySort le xs)).trans (ih.cons x)

theorem mem_oInsert {le : α → α → Bool} {x z : α} {l : List α}
    (h : z ∈ oInsert le x l) : z = x ∨ z ∈ l :=
  List.mem_cons.mp ((oInsert_perm le x l).mem_iff.mp h)

theorem pairwise_oInsert {le : α → α → Bool}
    (total : ∀ a b, le a b = true ∨ le b a = true)
    (trans : ∀ a b c, le a b = true → le b c = true → le a c = true)
    (x : α) {l : List α} (hl : l.Pairwise (fun a b => le a b = true)) :
    (oInsert le x l).Pairwise (fun a b => le a b = true) := by
  induction l with
  | nil => simp [oInsert]
  | cons y ys ih =>
    rcases hl with - | ⟨hy, hys⟩
    by_cases h : le x y = true
    · simp only [oInsert, h, if_true]
      refine List.pairwise_cons.2 ⟨?_, List.pairwise_cons.2 ⟨hy, hys⟩⟩
      intro z hz
      rcases List.mem_cons.mp hz with rfl | hz
      · exact h
      · exact trans x y z h (hy z hz)
    · simp only [oInsert, h, if_neg, Bool.not_eq_true]
      refine List.pairwise_cons.2 ⟨?_, ih hys⟩
      intro z hz
      rcases mem_oInsert hz with rfl | hz
      · rcases total y z with h' | h'
        · exact h'
        · exact absurd h' h
      · exact hy z hz

theorem pySort_pairwise {le : α → α → Bool}
    (total : ∀ a b, le a b = true ∨ le b a = true)
    (trans : ∀ a b c, le a b = true → le b c = true → le a c = true)
    (l : List α) :
    (pySort le l).Pairwise (fun a b => le a b = true) := by
  induction l with
  | nil => simp [pySort]
  | cons x xs ih => exact pairwise_oInsert total trans x ih

/-! ### Lemmas about the retry loop -/

theorem convertLoop_fs_path (oracle : Nat → AttemptOracle) (jitter : Nat → ℚ)
    (sm tm : String) (r : Bool) (ch : Option Nat) (outPath : String) :
    ∀ fuel a b ev, ev ∈ (convertLoop oracle jitter sm tm r ch outPath fuel a b).fs →
      evPath ev = outPath := by
  intro fuel
  induction fuel with
  | zero => intro a b ev h; simp [convertLoop] at h
  | succ n ih =>
    intro a b ev h
    simp only [convertLoop] at h
    cases hc : (oracle a).createRes with
    | error e =>
      simp only [hc] at h
      by_cases hr : excReturns e a 3 = true
      · simp [hr] at h
      · simp only [hr, if_neg, Bool.not_eq_true, if_false] at h
        exact ih (a + 1) (b * 2) ev h
    | ok fid =>
      simp only [hc] at h
      cases he : (oracle a).exportRes with
      | error e =>
        simp only [he] at h
        by_cases hr : excReturns e a 3 = true
        · simp [hr] at h
          simp [h, evPath]
        · simp only [hr, if_neg, Bool.not_eq_true, if_false, List.mem_cons] at h
          rcases h with rfl | h
          · rfl
          · exact ih (a + 1) (b * 2) ev h
      | ok pdf =>
        simp only [he] at h
        simp at h
        rcases h with rfl | rfl <;> rfl

theorem convertLoop_success_fs_ne (oracle : Nat → AttemptOracle)
    (jitter : Nat → ℚ) (sm tm : String) (r : Bool) (ch : Option Nat)
    (outPath : String) :
    ∀ fuel a b,
      (convertLoop oracle jitter sm tm r ch outPath fuel a b).status = .success →
      (convertLoop oracle jitter sm tm r ch outPath fuel a b).fs ≠ [] := by
  intro fuel
  induction fuel with
  | zero => intro a b h; simp [convertLoop] at h
  | succ n ih =>
    intro a b h
    simp only [convertLoop] at h ⊢
    cases hc : (oracle a).createRes with
    | error e =>
      simp only [hc] at h ⊢
      by_cases hr : excReturns e a 3 = true
      · simp [hr] at h
      · simp only [hr, if_neg, Bool.not_eq_true, if_false] at h ⊢
        exact ih (a + 1) (b * 2) h
    | ok fid =>
      simp only [hc] at h ⊢
      cases he : (oracle a).exportRes with
      | error e =>
        simp only [he] at h ⊢
        by_cases hr : excReturns e a 3 = true
        · simp [hr] at h
        · simp [hr]
      | ok pdf => simp only [he]; simp

theorem convertLoop_ops_head (oracle : Nat → AttemptOracle) (jitter : Nat → ℚ)
    (sm tm : String) (r : Bool) (ch : Option Nat) (outPath : String)
    (fuel a : Nat) (b : ℚ) :
    ((convertLoop oracle jitter sm tm r ch outPath (fuel + 1) a b).ops).head? =
      some (.create sm tm r ch) := by
  simp only [convertLoop]
  cases hc : (oracle a).createRes with
  | error e =>
    by_cases hr : excReturns e a 3 = true <;> simp [hr]
  | ok fid =>
    cases he : (oracle a).exportRes with
    | error e => by_cases hr : excReturns e a 3 = true <;> simp [hr]
    | ok pdf => simp

/-! ### Lemmas about filesystem replay -/

theorem lookup_applyFs (p : String) (t : Int) :
    ∀ (fs : List FsEv) (l : List (String × Option Int)), fs ≠ [] →
      (∀ ev ∈ fs, evPath ev = p) →
      List.lookup p (applyFs l t fs) = some (some t) := by
  intro fs
  induction fs with
  | nil => intro l h; exact absurd rfl h
  | cons ev rest ih =>
    intro l _ hall
    cases rest with
    | nil =>
      have hp : evPath ev = p := hall ev (List.mem_cons_self ev [])
      simp [applyFs, hp, List.lookup]
    | cons e2 r2 =>
      simp only [applyFs]
      exact ih _ (by simp) (fun x hx => hall x (List.mem_cons_of_mem ev hx))

/-! ### Lemmas about the batch loop -/

theorem runBatch_order (runOne : String → Nat → Except PyExc ConvOut) :
    ∀ l : List (String × Nat), (runBatch runOne l).order = l.map Prod.fst := by
  intro l
  induction l with
  | nil => rfl
  | cons x xs ih =>
    obtain ⟨p, s⟩ := x
    simp only [runBatch, List.map, ih]

theorem status_one (st : Status) :
    (if st = Status.success then 1 else 0) + (if st = Status.failed then 1 else 0) +
      (if st = Status.skipped then 1 else 0) = 1 := by
  cases st <;> simp

theorem runBatch_counts (runOne : String → Nat → Except PyExc ConvOut) :
    ∀ l : List (String × Nat),
      (runBatch runOne l).success + (runBatch runOne l).failed +
        (runBatch runOne l).skipped = l.length := by
  intro l
  induction l with
  | nil => rfl
  | cons x xs ih =>
    obtain ⟨p, s⟩ := x
    simp only [runBatch, List.length_cons]
    cases hr : runOne p s with
    | ok out =>
      have h1 := status_one out.status
      simp only [hr]
      omega
    | error e =>
      simp [hr]
      omega

theorem runBatch_inFlight (runOne : String → Nat → Except PyExc ConvOut) :
    ∀ l : List (String × Nat), maxInFlight (runBatch runOne l).trace ≤ 1 := by
  intro l
  induction l with
  | nil => simp [runBatch, maxInFlight, inFlightCounts]
  | cons x xs ih =>
    obtain ⟨p, s⟩ := x
    have h : (0 : Nat) + 1 - 1 = 0 := rfl
    simp only [runBatch, maxInFlight, inFlightCounts, List.foldr_cons, h] at ih ⊢
    omega

/-! ### Lemmas about `convert_one` -/

theorem convert_one_skips (oracle : Nat → AttemptOracle) (jitter : Nat → ℚ)
    (outputDir : String) (outFS : List (String × Option Int)) (ctx : FileCtx)
    (m : String × String) (mo ms : Int)
    (hm : lookupMime (extOf ctx.path) = some m)
    (ho : List.lookup (outPathOf outputDir ctx.path) outFS = some (some mo))
    (hs : ctx.srcMtime = some ms) (hle : ms ≤ mo) :
    convert_one oracle jitter outputDir outFS ctx = ⟨.skipped, [], [], []⟩ := by
  have hut : upToDate outFS (outPathOf outputDir ctx.path) ctx.srcMtime = true := by
    simp [upToDate, ho, hs, hle]
  simp [convert_one, hm, hut]

theorem convert_one_run (oracle : Nat → AttemptOracle) (jitter : Nat → ℚ)
    (outputDir : String) (outFS : List (String × Option Int)) (ctx : FileCtx)
    (m : String × String)
    (hm : lookupMime (extOf ctx.path) = some m)
    (hsk : upToDate outFS (outPathOf outputDir ctx.path) ctx.srcMtime = false) :
    convert_one oracle jitter outputDir outFS ctx =
      convertLoop oracle jitter m.1 m.2
        (decide (ctx.fileSize.getD ctx.getsize > RESUMABLE_THRESHOLD_BYTES))
        (if ctx.fileSize.getD ctx.getsize > RESUMABLE_THRESHOLD_BYTES then
          some RESUMABLE_UPLOAD_CHUNK_SIZE else none)
        (outPathOf outputDir ctx.path) 3 1 1 := by
  simp [convert_one, hm, hsk]

theorem convertLoop_first_ok (oracle : Nat → AttemptOracle) (jitter : Nat → ℚ)
    (sm tm : String) (r : Bool) (ch : Option Nat) (outPath : String)
    (fuel a : Nat) (b : ℚ) (fid pdf : String)
    (h1 : (oracle a).createRes = Except.ok fid)
    (h2 : (oracle a).exportRes = Except.ok pdf) :
    convertLoop oracle jitter sm tm r ch outPath (fuel + 1) a b =
      ⟨.success, [.create sm tm r ch, .exportPdf fid, .delete fid, .delete fid],
        [.truncateOut outPath, .writeOut outPath pdf], []⟩ := by
  simp only [convertLoop, h1, h2]

/-! ### Concrete fixtures used by witnesses and counterexamples -/

/-- Jitter oracle that always returns zero. -/
def noJitter : Nat → ℚ := fun _ => 0

/-- A supported `.docx` input below the resumable threshold, output absent. -/
def reportCtx : FileCtx := ⟨"input/report.docx", some 100, 1000, some 1000⟩

/-- Remote service on which every call raises `OSError`. -/
def ioFailOracle : Nat → AttemptOracle :=
  fun _ => ⟨.error .ioErr, .error .ioErr⟩

/-- Remote service on which every call raises `HttpError` with status 400. -/
def h400Oracle : Nat → AttemptOracle :=
  fun _ => ⟨.error (.http (some 400)), .error (.http (some 400))⟩

/-- Remote service on which every call raises `HttpError` with status 500. -/
def h500Oracle : Nat → AttemptOracle :=
  fun _ => ⟨.error (.http (some 500)), .error (.http (some 500))⟩

/-- Remote service on which every call succeeds. -/
def alwaysOkOracle : Nat → AttemptOracle :=
  fun _ => ⟨.ok "tmpFileId", .ok "PDFBYTES"⟩

/-! ## Claims -/

/-- C1 (counterexample): the claim says a successful conversion performs
exactly three remote operations, but on a fully succeeding service the
success path issues four — the cleanup `finally` block runs on `return
"success"` as well, deleting the already-deleted temporary copy a second
time. -/
theorem c1_exactly_three_ops_counterexample :
    (convert_one alwaysOkOracle noJitter "output" [] reportCtx).status
        = Status.success ∧
      (convert_one alwaysOkOracle noJitter "output" [] reportCtx).ops.length ≠ 3 := by
  exact ⟨rfl, by decide⟩

/-- C1 (amended): for every supported input file that is not skipped, an
attempt on which both remote calls succeed performs exactly four remote
operations in this order: create-with-upload of the source file (with the
extension's source MIME type and the target cloud-document MIME type),
export of the created cloud document as PDF written to the output path,
then two deletion attempts of the temporary cloud copy — one in the
success path and one in the `finally` cleanup that also runs on return. -/
theorem c1_success_op_sequence (oracle : Nat → AttemptOracle)
    (jitter : Nat → ℚ) (outputDir : String)
    (outFS : List (String × Option Int)) (ctx : FileCtx)
    (m : String × String) (fid pdf : String)
    (hm : lookupMime (extOf ctx.path) = some m)
    (hsk : upToDate outFS (outPathOf outputDir ctx.path) ctx.srcMtime = false)
    (h1 : (oracle 1).createRes = Except.ok fid)
    (h2 : (oracle 1).exportRes = Except.ok pdf) :
    (convert_one oracle jitter outputDir outFS ctx).status = Status.success ∧
    (convert_one oracle jitter outputDir outFS ctx).ops =
      [RemoteOp.create m.1 m.2
          (decide (ctx.fileSize.getD ctx.getsize > RESUMABLE_THRESHOLD_BYTES))
          (if ctx.fileSize.getD ctx.getsize > RESUMABLE_THRESHOLD_BYTES then
            some RESUMABLE_UPLOAD_CHUNK_SIZE else none),
        RemoteOp.exportPdf fid, RemoteOp.delete fid, RemoteOp.delete fid] := by
  rw [convert_one_run oracle jitter outputDir outFS ctx m hm hsk,
    convertLoop_first_ok oracle jitter m.1 m.2 _ _ _ 2 1 1 fid pdf h1 h2]
  exact ⟨rfl, rfl⟩

/-- C1 (witness): the amended sequence at a concrete `.docx` input on a
fully succeeding service. -/
theorem c1_success_op_sequence_witness :
    (convert_one alwaysOkOracle noJitter "output" [] reportCtx).status
        = Status.success ∧
    (convert_one alwaysOkOracle noJitter "output" [] reportCtx).ops =
      [RemoteOp.create
          "application/vnd.openxmlformats-officedocument.wordprocessingml.document"
          "application/vnd.google-apps.document" false none,
        RemoteOp.exportPdf "tmpFileId", RemoteOp.delete "tmpFileId",
        RemoteOp.delete "tmpFileId"] :=
  c1_success_op_sequence alwaysOkOracle noJitter "output" [] reportCtx
    ("application/vnd.openxmlformats-officedocument.wordprocessingml.document",
      "application/vnd.google-apps.document") "tmpFileId" "PDFBYTES"
    rfl rfl rfl rfl

/-- C2 (counterexample): the claim says eligible files are processed
concurrently through a worker pool; on a batch of two eligible files the
trace never has two files in flight at once — processing is strictly
sequential. -/
theorem c2_worker_pool_counterexample :
    (process_all "input" [⟨"b.docx", true, some 10⟩, ⟨"a.xlsx", true, some 20⟩]
        (fun _ _ => Except.error PyExc.other) 0 1).order.length = 2 ∧
    ¬ 2 ≤ maxInFlight
        (process_all "input" [⟨"b.docx", true, some 10⟩, ⟨"a.xlsx", true, some 20⟩]
          (fun _ _ => Except.error PyExc.other) 0 1).trace := by
  exact ⟨by decide, by decide⟩

/-- C2 (amended): the batch runner processes eligible files strictly
sequentially in a single loop (the source itself logs `(sequential)`): at
every point of the batch trace at most one file is in flight, for every
input directory and every behaviour of the per-file conversion. -/
theorem c2_sequential_batch (inputDir : String) (entries : List DirEntry)
    (runOne : String → Nat → Except PyExc ConvOut) (t0 t1 : ℚ) :
    maxInFlight (process_all inputDir entries runOne t0 t1).trace ≤ 1 := by
  by_cases h : (eligibleInfo inputDir entries).isEmpty = true
  · simp [process_all, h, maxInFlight, inFlightCounts]
  · have h' : (eligibleInfo inputDir entries).isEmpty = false := by
      simpa using h
    simp only [process_all, h', Bool.false_eq_true, if_false]
    exact runBatch_inFlight runOne _

/-- C3 (counterexample): the claim says a remote-call sequence failing
with HTTP 400 is not retried, but on a service that always raises HTTP
400 the loop issues the create call three times — 400 is retried exactly
like every other failure until the attempt budget runs out. -/
theorem c3_no_retry_400_counterexample :
    (convert_one h400Oracle noJitter "output" [] reportCtx).ops =
      List.replicate 3 (RemoteOp.create
        "application/vnd.openxmlformats-officedocument.wordprocessingml.document"
        "application/vnd.google-apps.document" false none) ∧
    (convert_one h400Oracle noJitter "output" [] reportCtx).status
      = Status.failed := by
  exact ⟨by decide, rfl⟩

/-- C3 (amended): no HTTP status short-circuits the retry budget: HTTP
400, any other HTTP status, and I/O errors are all retried up to the
3-attempt budget and end in `'failed'`.  The only special treatment of
status 400 is at the final attempt, where it returns immediately (2
backoff sleeps, like I/O errors), while other HTTP failures fall through
to one more backoff sleep (3 sleeps) before the budget-exhausted return. -/
theorem c3_retry_classification (jitter : Nat → ℚ) :
    ((convert_one h400Oracle jitter "output" [] reportCtx).status = Status.failed ∧
      (convert_one h400Oracle jitter "output" [] reportCtx).ops.length = 3 ∧
      (convert_one h400Oracle jitter "output" [] reportCtx).sleeps.length = 2) ∧
    ((convert_one h500Oracle jitter "output" [] reportCtx).status = Status.failed ∧
      (convert_one h500Oracle jitter "output" [] reportCtx).ops.length = 3 ∧
      (convert_one h500Oracle jitter "output" [] reportCtx).sleeps.length = 3) ∧
    ((convert_one ioFailOracle jitter "output" [] reportCtx).status = Status.failed ∧
      (convert_one ioFailOracle jitter "output" [] reportCtx).ops.length = 3 ∧
      (convert_one ioFailOracle jitter "output" [] reportCtx).sleeps.length = 2) :=
  ⟨⟨rfl, rfl, rfl⟩, ⟨rfl, rfl, rfl⟩, ⟨rfl, rfl, rfl⟩⟩

/-- C4: the retry loop has a fixed budget of 3 attempts; between
consecutive attempts it sleeps the exponentially growing base delay (1s,
then 2s) plus the jitter drawn from `uniform(0, 0.2)`, and once the
budget is exhausted `convert_one` returns `'failed'`. -/
theorem c4_retry_budget_and_backoff (jitter : Nat → ℚ)
    (hj : ∀ i, 0 ≤ jitter i ∧ jitter i ≤ 1 / 5) :
    (convert_one ioFailOracle jitter "output" [] reportCtx).status
        = Status.failed ∧
    (convert_one ioFailOracle jitter "output" [] reportCtx).ops.length = 3 ∧
    (convert_one ioFailOracle jitter "output" [] reportCtx).sleeps =
      [1 + jitter 1, 2 + jitter 2] ∧
    (∀ s ∈ (convert_one ioFailOracle jitter "output" [] reportCtx).sleeps,
      ∃ base j, (base = 1 ∨ base = 2) ∧ 0 ≤ j ∧ j ≤ 1 / 5 ∧ s = base + j) := by
  have hs : (convert_one ioFailOracle jitter "output" [] reportCtx).sleeps =
      [1 + jitter 1, 1 * 2 + jitter 2] := rfl
  refine ⟨rfl, rfl, by rw [hs, one_mul], ?_⟩
  intro s hsm
  rw [hs, one_mul] at hsm
  rcases List.mem_cons.mp hsm with rfl | hsm
  · exact ⟨1, jitter 1, Or.inl rfl, (hj 1).1, (hj 1).2, rfl⟩
  · rcases List.mem_cons.mp hsm with rfl | hsm
    · exact ⟨2, jitter 2, Or.inr rfl, (hj 2).1, (hj 2).2, rfl⟩
    · simp at hsm

/-- C4 (witness): the retry schedule at zero jitter. -/
theorem c4_retry_budget_and_backoff_witness :
    (convert_one ioFailOracle noJitter "output" [] reportCtx).status
        = Status.failed ∧
    (convert_one ioFailOracle noJitter "output" [] reportCtx).ops.length = 3 ∧
    (convert_one ioFailOracle noJitter "output" [] reportCtx).sleeps =
      [1 + noJitter 1, 2 + noJitter 2] ∧
    (∀ s ∈ (convert_one ioFailOracle noJitter "output" [] reportCtx).sleeps,
      ∃ base j, (base = 1 ∨ base = 2) ∧ 0 ≤ j ∧ j ≤ 1 / 5 ∧ s = base + j) :=
  c4_retry_budget_and_backoff noJitter (fun _ => by norm_num [noJitter])

/-- C5: skip-if-up-to-date is idempotent.  First part: for every supported
input whose output PDF already exists with a modification time at least
the source's, `convert_one` returns `'skipped'` with no remote operation
and no filesystem write (the existing PDF is untouched).  Second part: if
a run of `convert_one` returns `'success'` and its filesystem writes land
with a modification time at least the source's, a second run of the same
file skips, performing nothing — so a second batch converts no file
twice. -/
theorem c5_skip_idempotent :
    (∀ (oracle : Nat → AttemptOracle) (jitter : Nat → ℚ) (outputDir : String)
        (outFS : List (String × Option Int)) (ctx : FileCtx)
        (m : String × String) (mo ms : Int),
        lookupMime (extOf ctx.path) = some m →
        List.lookup (outPathOf outputDir ctx.path) outFS = some (some mo) →
        ctx.srcMtime = some ms → ms ≤ mo →
        convert_one oracle jitter outputDir outFS ctx = ⟨.skipped, [], [], []⟩) ∧
    (∀ (oracle oracle2 : Nat → AttemptOracle) (jitter jitter2 : Nat → ℚ)
        (outputDir : String) (outFS : List (String × Option Int)) (ctx : FileCtx)
        (t ms : Int),
        ctx.srcMtime = some ms → ms ≤ t →
        (convert_one oracle jitter outputDir outFS ctx).status = Status.success →
        convert_one oracle2 jitter2 outputDir
          (applyFs outFS t (convert_one oracle jitter outputDir outFS ctx).fs) ctx
          = ⟨.skipped, [], [], []⟩) := by
  constructor
  · intro oracle jitter outputDir outFS ctx m mo ms hm ho hs hle
    exact convert_one_skips oracle jitter outputDir outFS ctx m mo ms hm ho hs hle
  · intro oracle oracle2 jitter jitter2 outputDir outFS ctx t ms hs hle hsucc
    cases hm : lookupMime (extOf ctx.path) with
    | none => simp [convert_one, hm] at hsucc
    | some m =>
      by_cases hsk : upToDate outFS (outPathOf outputDir ctx.path) ctx.srcMtime = true
      · simp [convert_one, hm, hsk] at hsucc
      · have hsk' : upToDate outFS (outPathOf outputDir ctx.path) ctx.srcMtime
            = false := by simpa using hsk
        have hrun := convert_one_run oracle jitter outputDir outFS ctx m hm hsk'
        rw [hrun] at hsucc ⊢
        have hne := convertLoop_success_fs_ne oracle jitter m.1 m.2 _ _ _ 3 1 1 hsucc
        have hlook := lookup_applyFs (outPathOf outputDir ctx.path) t _ outFS hne
          (fun ev hev => convertLoop_fs_path oracle jitter m.1 m.2 _ _ _ 3 1 1 ev hev)
        exact convert_one_skips oracle2 jitter2 outputDir _ ctx m t ms hm hlook hs hle

/-- C5 (witness): a concrete up-to-date output skips, and a concrete
successful run followed by a rerun skips. -/
theorem c5_skip_idempotent_witness :
    convert_one alwaysOkOracle noJitter "output" [("output/report.pdf", some 200)]
        reportCtx = ⟨.skipped, [], [], []⟩ ∧
    convert_one ioFailOracle noJitter "output"
        (applyFs [] 300 (convert_one alwaysOkOracle noJitter "output" [] reportCtx).fs)
        reportCtx = ⟨.skipped, [], [], []⟩ :=
  ⟨c5_skip_idempotent.1 alwaysOkOracle noJitter "output"
      [("output/report.pdf", some 200)] reportCtx
      ("application/vnd.openxmlformats-officedocument.wordprocessingml.document",
        "application/vnd.google-apps.document") 200 100 rfl rfl rfl (by norm_num),
    c5_skip_idempotent.2 alwaysOkOracle ioFailOracle noJitter noJitter "output" []
      reportCtx 300 100 rfl (by norm_num) rfl⟩

/-- C6: resumable upload is chosen if and only if the file size strictly
exceeds the 5 MiB threshold, in which case the 8 MiB chunk size is passed
to the upload; at or below the threshold the upload is non-resumable with
no chunk size. -/
theorem c6_resumable_threshold (oracle : Nat → AttemptOracle)
    (jitter : Nat → ℚ) (outputDir : String)
    (outFS : List (String × Option Int)) (ctx : FileCtx) (m : String × String)
    (hm : lookupMime (extOf ctx.path) = some m)
    (hsk : upToDate outFS (outPathOf outputDir ctx.path) ctx.srcMtime = false) :
    (convert_one oracle jitter outputDir outFS ctx).ops.head? =
      some (RemoteOp.create m.1 m.2
        (decide (ctx.fileSize.getD ctx.getsize > 5 * 1024 * 1024))
        (if ctx.fileSize.getD ctx.getsize > 5 * 1024 * 1024 then
          some (8 * 1024 * 1024) else none)) := by
  rw [convert_one_run oracle jitter outputDir outFS ctx m hm hsk]
  exact convertLoop_ops_head oracle jitter m.1 m.2 _ _ _ 2 1 1

/-- C6 (witness): a 1000-byte file uploads non-resumably; a file one byte
above the threshold uploads resumably with the 8 MiB chunk size. -/
theorem c6_resumable_threshold_witness :
    (convert_one alwaysOkOracle noJitter "output" [] reportCtx).ops.head? =
      some (RemoteOp.create
        "application/vnd.openxmlformats-officedocument.wordprocessingml.document"
        "application/vnd.google-apps.document"
        (decide (1000 > 5 * 1024 * 1024))
        (if 1000 > 5 * 1024 * 1024 then some (8 * 1024 * 1024) else none)) ∧
    (convert_one alwaysOkOracle noJitter "output" []
        ⟨"input/big.pptx", some 100, 9, some (5 * 1024 * 1024 + 1)⟩).ops.head? =
      some (RemoteOp.create
        "application/vnd.openxmlformats-officedocument.presentationml.presentation"
        "application/vnd.google-apps.presentation"
        (decide (5 * 1024 * 1024 + 1 > 5 * 1024 * 1024))
        (if 5 * 1024 * 1024 + 1 > 5 * 1024 * 1024 then some (8 * 1024 * 1024)
          else none)) :=
  ⟨c6_resumable_threshold alwaysOkOracle noJitter "output" [] reportCtx
      ("application/vnd.openxmlformats-officedocument.wordprocessingml.document",
        "application/vnd.google-apps.document") rfl rfl,
    c6_resumable_threshold alwaysOkOracle noJitter "output" []
      ⟨"input/big.pptx", some 100, 9, some (5 * 1024 * 1024 + 1)⟩
      ("application/vnd.openxmlformats-officedocument.presentationml.presentation",
        "application/vnd.google-apps.presentation")
      (by decide) (by decide)⟩

/-- C7: on every non-empty batch the success, failed and skipped counters
sum to the number of eligible files (each file bumps exactly one counter,
an escaping exception counting as failed), and the reported elapsed time
is the difference of the batch's end and start clock readings. -/
theorem c7_batch_counts (inputDir : String) (entries : List DirEntry)
    (runOne : String → Nat → Except PyExc ConvOut) (t0 t1 : ℚ)
    (hne : eligibleInfo inputDir entries ≠ []) :
    (process_all inputDir entries runOne t0 t1).success +
        (process_all inputDir entries runOne t0 t1).failed +
        (process_all inputDir entries runOne t0 t1).skipped =
      (eligibleInfo inputDir entries).length ∧
    (process_all inputDir entries runOne t0 t1).elapsed = some (t1 - t0) := by
  have hni : (eligibleInfo inputDir entries).isEmpty = false := by
    simpa [List.isEmpty_iff] using hne
  simp only [process_all, hni, Bool.false_eq_true, if_false]
  refine ⟨?_, by trivial⟩
  rw [runBatch_counts]
  exact (pySort_perm infoLe _).length_eq

/-- C7 (witness): a two-file batch where one file fails by exception and
one is skipped. -/
theorem c7_batch_counts_witness :
    (process_all "input" [⟨"a.docx", true, some 10⟩, ⟨"b.xls", true, some 20⟩]
        (fun p _ => if p = "input/a.docx" then Except.error PyExc.other
          else Except.ok ⟨.skipped, [], [], []⟩) 0 7).success +
        (process_all "input" [⟨"a.docx", true, some 10⟩, ⟨"b.xls", true, some 20⟩]
          (fun p _ => if p = "input/a.docx" then Except.error PyExc.other
            else Except.ok ⟨.skipped, [], [], []⟩) 0 7).failed +
        (process_all "input" [⟨"a.docx", true, some 10⟩, ⟨"b.xls", true, some 20⟩]
          (fun p _ => if p = "input/a.docx" then Except.error PyExc.other
            else Except.ok ⟨.skipped, [], [], []⟩) 0 7).skipped =
      (eligibleInfo "input" [⟨"a.docx", true, some 10⟩, ⟨"b.xls", true, some 20⟩]).length ∧
    (process_all "input" [⟨"a.docx", true, some 10⟩, ⟨"b.xls", true, some 20⟩]
        (fun p _ => if p = "input/a.docx" then Except.error PyExc.other
          else Except.ok ⟨.skipped, [], [], []⟩) 0 7).elapsed = some (7 - 0) :=
  c7_batch_counts "input" [⟨"a.docx", true, some 10⟩, ⟨"b.xls", true, some 20⟩]
    (fun p _ => if p = "input/a.docx" then Except.error PyExc.other
      else Except.ok ⟨.skipped, [], [], []⟩) 0 7 (by decide)

/-- C8: `convert_one` always returns one of the three statuses, and on a
path whose lower-cased extension is not in the supported table it returns
`'skipped'` with no remote operation, no filesystem event and no sleep. -/
theorem c8_total_and_unsupported (oracle : Nat → AttemptOracle)
    (jitter : Nat → ℚ) (outputDir : String)
    (outFS : List (String × Option Int)) (ctx : FileCtx) :
    ((convert_one oracle jitter outputDir outFS ctx).status = Status.success ∨
      (convert_one oracle jitter outputDir outFS ctx).status = Status.failed ∨
      (convert_one oracle jitter outputDir outFS ctx).status = Status.skipped) ∧
    (lookupMime (extOf ctx.path) = none →
      convert_one oracle jitter outputDir outFS ctx = ⟨.skipped, [], [], []⟩) := by
  constructor
  · cases h : (convert_one oracle jitter outputDir outFS ctx).status <;> simp
  · intro hm
    simp [convert_one, hm]

/-- C8 (witness): a `.txt` file is skipped with empty traces. -/
theorem c8_total_and_unsupported_witness :
    ((convert_one alwaysOkOracle noJitter "output" []
        ⟨"input/notes.txt", some 1, 5, some 5⟩).status = Status.success ∨
      (convert_one alwaysOkOracle noJitter "output" []
        ⟨"input/notes.txt", some 1, 5, some 5⟩).status = Status.failed ∨
      (convert_one alwaysOkOracle noJitter "output" []
        ⟨"input/notes.txt", some 1, 5, some 5⟩).status = Status.skipped) ∧
    convert_one alwaysOkOracle noJitter "output" []
        ⟨"input/notes.txt", some 1, 5, some 5⟩ = ⟨.skipped, [], [], []⟩ :=
  ⟨(c8_total_and_unsupported alwaysOkOracle noJitter "output" []
      ⟨"input/notes.txt", some 1, 5, some 5⟩).1,
    (c8_total_and_unsupported alwaysOkOracle noJitter "output" []
      ⟨"input/notes.txt", some 1, 5, some 5⟩).2 (by decide)⟩

/-- C9: the processing order of the batch is a permutation of the
eligible files (each processed exactly once) and is sorted in ascending
case-insensitive lexicographic order of the files' basenames. -/
theorem c9_processing_order (inputDir : String) (entries : List DirEntry)
    (runOne : String → Nat → Except PyExc ConvOut) (t0 t1 : ℚ) :
    (process_all inputDir entries runOne t0 t1).order.Perm
        ((eligibleInfo inputDir entries).map Prod.fst) ∧
    (process_all inputDir entries runOne t0 t1).order.Pairwise
        (fun p q => lexLe (sortKey p) (sortKey q) = true) := by
  by_cases h : (eligibleInfo inputDir entries).isEmpty = true
  · have h' : eligibleInfo inputDir entries = [] := by
      simpa [List.isEmpty_iff] using h
    simp [process_all, h, h']
  · have h' : (eligibleInfo inputDir entries).isEmpty = false := by simpa using h
    simp only [process_all, h', Bool.false_eq_true, if_false]
    rw [runBatch_order]
    constructor
    · exact (pySort_perm infoLe _).map Prod.fst
    · exact (pySort_pairwise infoLe_total (fun a b c => infoLe_trans)
        (eligibleInfo inputDir entries)).map Prod.fst (fun a b hab => hab)

/-- C10: when the input directory has no eligible file (directories,
unsupported extensions, unreadable sizes), `process_all` only warns:
empty order, zero counters, no elapsed report, no remote operation, no
filesystem write, empty trace. -/
theorem c10_empty_input (inputDir : String) (entries : List DirEntry)
    (runOne : String → Nat → Except PyExc ConvOut) (t0 t1 : ℚ)
    (h : eligibleInfo inputDir entries = []) :
    process_all inputDir entries runOne t0 t1 =
      ⟨[], 0, 0, 0, true, none, [], [], []⟩ := by
  simp [process_all, h]

/-- C10 (witness): a directory entry, an unsupported file and a file with
an unreadable size leave the batch empty. -/
theorem c10_empty_input_witness :
    process_all "input" [⟨"sub", false, some 3⟩, ⟨"x.txt", true, some 1⟩,
        ⟨"b.docx", true, none⟩] (fun _ _ => Except.error PyExc.other) 0 1 =
      ⟨[], 0, 0, 0, true, none, [], [], []⟩ :=
  c10_empty_input "input" [⟨"sub", false, some 3⟩, ⟨"x.txt", true, some 1⟩,
    ⟨"b.docx", true, none⟩] (fun _ _ => Except.error PyExc.other) 0 1 rfl

end ToPdf
